import Mathlib

/-!
Shallow embedding of `skyfield/timescales.py` (time-scale conversion core).

Modelling conventions:
* Python/numpy double values are modelled as rationals (`ℚ`); the arithmetic
  performed by the code under study (sums, differences, divisions by powers
  of ten and small constants, floor divisions) is exact on the inputs the
  claims quantify over, so the rational model coincides with the float code
  on those inputs.
* Python `//` on floats is floor division returning a float: `pyfdiv`.
  Python `//` on ints is floor division; all divisors appearing in this file
  are positive, for which the `Int` division of Lean (`/`, Euclidean) coincides
  with floor division.
* `divmod(x, y)` is `(x // y, x - y * (x // y))`.
* the float infinity sentinels are modelled by the type `XRat`
  extending `ℚ` with two infinities.
* right-biased `numpy.searchsorted` on a sorted array `a` returns the
  number of entries `≤ v`; `searchsortedRight` is that count.
* Fallible code (Python exceptions) is modelled with `Except String`.
-/

/-- Python floor division on floats: `a // b`, returned as a float. -/
def pyfdiv (a b : ℚ) : ℚ := ((a / b).floor : ℤ)

/-- Python `divmod(a, b)` on floats: `(a // b, a % b)`. -/
def pydivmod (a b : ℚ) : ℚ × ℚ := (pyfdiv a b, a - b * pyfdiv a b)

/-- Python `int(q)`: truncation toward zero. -/
def pytrunc (q : ℚ) : ℤ := if 0 ≤ q then q.floor else -(-q).floor

/-- A rational extended with the float infinities, as used for
the sentinel entries of the leap-second table. -/
inductive XRat where
  | negInf : XRat
  | fin (q : ℚ) : XRat
  | posInf : XRat
deriving DecidableEq, Repr

/-- Order on `XRat` matching IEEE comparisons with infinities. -/
def XRat.le : XRat → XRat → Bool
  | .negInf, _ => true
  | _, .posInf => true
  | .fin a, .fin b => a ≤ b
  | .posInf, .fin _ => false
  | .posInf, .negInf => false
  | .fin _, .negInf => false

/-- IEEE addition of a finite float to a possibly-infinite one
(`inf + q = inf`, `-inf + q = -inf`), used for `leap_dates + leap_offsets / DAY_S`. -/
def XRat.addQ : XRat → ℚ → XRat
  | .negInf, _ => .negInf
  | .posInf, _ => .posInf
  | .fin a, q => .fin (a + q)

/-- Model of right-biased `numpy.searchsorted` for a sorted array `a`: the rightmost
insertion point, i.e. the number of entries that are `≤ v`. -/
def searchsortedRight (a : List XRat) (v : XRat) : Nat :=
  a.countP (fun x => XRat.le x v)

/-- Modelled from the spec: the constants module supplies `DAY_S`, the number
of seconds per day, `86400` (the spec writes the conversions as `.../86400`). -/
def DAY_S : ℚ := 86400

/-- Source: `tt_minus_tai = array(32.184 / DAY_S)`. -/
def tt_minus_tai : ℚ := (32184 / 1000) / DAY_S

/-- Source: `julian_date(year, month=1, day=1, hour=0.0, minute=0.0, second=0.0)`.
The calendar arguments are integers (as in every use by the claims), for which
the Python `//` operations are integer floor divisions; with the positive
divisors `4`, `12`, `100` they agree with the `Int` division of Lean. -/
def julian_date (year month day : ℤ) (hour minute second : ℚ) : ℚ :=
  let janfeb : ℤ := if month < 3 then 1 else 0
  ((second / 60 + minute) / 60 + hour) / 24 - 1/2 +
    ((day - 32075
      + 1461 * (year + 4800 - janfeb) / 4
      + 367 * (month - 2 + janfeb * 12) / 12
      - 3 * ((year + 4900 - janfeb) / 100) / 4 : ℤ) : ℚ)

/-- The integer part of `julian_date y m d 0 0 0 + 1/2`: the Julian day
number produced by the integer portion of the `julian_date` formula. -/
def julian_day_number (year month day : ℤ) : ℤ :=
  let janfeb : ℤ := if month < 3 then 1 else 0
  day - 32075
    + 1461 * (year + 4800 - janfeb) / 4
    + 367 * (month - 2 + janfeb * 12) / 12
    - 3 * ((year + 4900 - janfeb) / 100) / 4

/-- Source: `calendar_date(jd_integer)`, applied to a float argument exactly
as written (every `//` is then Python float floor division).  This is the
direct reading of `calendar_date(julian_date(...))` where the argument is a
half-integer float. -/
def calendar_date (jd_integer : ℚ) : ℚ × ℚ × ℚ :=
  let k := jd_integer + 68569
  let n := pyfdiv (4 * k) 146097
  let k := k - pyfdiv (146097 * n + 3) 4
  let m := pyfdiv (4000 * (k + 1)) 1461001
  let k := k - pyfdiv (1461 * m) 4 + 31
  let month := pyfdiv (80 * k) 2447
  let day := k - pyfdiv (2447 * month) 80
  let k := pyfdiv month 11
  let month := month + 2 - 12 * k
  let year := 100 * (n - 49) + m + k
  (year, month, day)

/-- Source: `calendar_date(jd_integer)` applied to an integer argument, as in
`JulianDate._utc` where the argument is `whole.astype(int)`; all operations
are integer floor divisions by positive divisors. -/
def calendar_dateZ (jd_integer : ℤ) : ℤ × ℤ × ℤ :=
  let k := jd_integer + 68569
  let n := 4 * k / 146097
  let k := k - (146097 * n + 3) / 4
  let m := 4000 * (k + 1) / 1461001
  let k := k - 1461 * m / 4 + 31
  let month := 80 * k / 2447
  let day := k - 2447 * month / 80
  let k := month / 11
  let month := month + 2 - 12 * k
  let year := 100 * (n - 49) + m + k
  (year, month, day)

/-- Source: `cal_date(jd)`; `int(jd)` truncates toward zero and the remaining
integer arithmetic is `calendar_dateZ`. -/
def cal_date (jd : ℚ) : ℤ × ℤ × ℤ × ℚ :=
  let jd := jd + 1/2
  let hour := (jd - (⌊jd⌋ : ℤ)) * 24
  let (year, month, day) := calendar_dateZ (pytrunc jd)
  (year, month, day, hour)

/-- Stage of `calendar_dateZ`: the value `n` computed from the input. -/
def cdN (J : ℤ) : ℤ := 4 * (J + 68569) / 146097

/-- Stage of `calendar_dateZ`: the value of `k` after the first reassignment. -/
def cdK1 (J : ℤ) : ℤ := (J + 68569) - (146097 * cdN J + 3) / 4

/-- Stage of `calendar_dateZ`: the value `m`. -/
def cdM (J : ℤ) : ℤ := 4000 * (cdK1 J + 1) / 1461001

/-- Stage of `calendar_dateZ`: the value of `k` after the second reassignment. -/
def cdK2 (J : ℤ) : ℤ := cdK1 J - 1461 * cdM J / 4 + 31

/-- Stage of `calendar_dateZ`: the preliminary `month`. -/
def cdMo (J : ℤ) : ℤ := 80 * cdK2 J / 2447

/-- Stage of `calendar_dateZ`: the `day`. -/
def cdDay (J : ℤ) : ℤ := cdK2 J - 2447 * cdMo J / 80

/-- Stage of `calendar_dateZ`: the final value of `k` (`month // 11`). -/
def cdKK (J : ℤ) : ℤ := cdMo J / 11

/-- The proleptic Gregorian leap-year rule (the spec claims correctness for
the proleptic Gregorian calendar, consistent with civil timekeeping use). -/
def isGregLeap (y : ℤ) : Bool := decide ((y % 4 = 0 ∧ y % 100 ≠ 0) ∨ y % 400 = 0)

/-- Number of days of month `m` of proleptic Gregorian year `y` (what the
claim calls a valid day of that month). -/
def daysInMonth (y m : ℤ) : ℤ :=
  if m = 2 then (if isGregLeap y then 29 else 28)
  else if m = 4 ∨ m = 6 ∨ m = 9 ∨ m = 11 then 30
  else 31

/-- Source: `tdb_minus_tt(jd_tdb)`.  The sine function and the epoch `T0`
come from external modules (`numpy.sin`, `constants.T0`) and are taken as
parameters of the embedding. -/
def tdb_minus_tt (sine : ℚ → ℚ) (T0 : ℚ) (jd_tdb : ℚ) : ℚ :=
  let t := (jd_tdb - T0) / 36525
  1657/1000000 * sine (6283076/10000 * t + 62401/10000)
    + 22/1000000 * sine (5753385/10000 * t + 42970/10000)
    + 14/1000000 * sine (12566152/10000 * t + 61969/10000)
    + 5/1000000 * sine (6069777/10000 * t + 40212/10000)
    + 5/1000000 * sine (529691/10000 * t + 4444/10000)
    + 2/1000000 * sine (213299/10000 * t + 55431/10000)
    + 10/1000000 * t * sine (6283076/10000 * t + 42490/10000)

/-- Source: `usno_leapseconds(cache)` after the external fetch: the parsed
per-line `(date, offset)` pairs are the input; the function prepends the
`-inf` sentinel and appends the `inf` sentinel to the dates row and inserts
`offsets[0]` twice at the head of the offsets row.  On an empty file,
`offsets[0]` raises `IndexError`. -/
def usno_leapseconds (parsed : List (ℚ × ℚ)) : Except String (List XRat × List ℚ) :=
  let dates := parsed.map Prod.fst
  let offsets := parsed.map Prod.snd
  match offsets with
  | [] => .error "IndexError: list index out of range"
  | o0 :: _ =>
      .ok (XRat.negInf :: (dates.map XRat.fin ++ [XRat.posInf]),
           o0 :: o0 :: offsets)

/-- The leap-second offset selected during UTC-to-TAI conversion: the
right-biased search over the dates row followed by indexing the offsets row
(`i = searchsorted(leap_dates, j, right); leap_offsets[i]`). -/
def leapLookup (leap_dates : List XRat) (leap_offsets : List ℚ) (j : ℚ) : ℚ :=
  leap_offsets.getD (searchsortedRight leap_dates (.fin j)) 0

/-- Source: `_utc_to_tai(leap_dates, leap_offsets, year, month, day, hour,
minute, second)`. -/
def _utc_to_tai (leap_dates : List XRat) (leap_offsets : List ℚ)
    (year month day : ℤ) (hour minute second : ℚ) : ℚ :=
  let j := julian_date year month day hour minute 0
  j + (second + leapLookup leap_dates leap_offsets j) / DAY_S

/-- Endpoint check for one month: the calendar algorithm is verified on the
first day of the month, and the stages `n`, `m`, `month` of the algorithm are
verified to take equal values on the first and last day of the month. -/
def checkMonthE (y m : ℤ) : Bool :=
  decide (calendar_dateZ (julian_day_number y m 1) = (y, m, 1)
    ∧ cdN (julian_day_number y m 1)
        = cdN (julian_day_number y m 1 + (daysInMonth y m - 1))
    ∧ cdM (julian_day_number y m 1)
        = cdM (julian_day_number y m 1 + (daysInMonth y m - 1))
    ∧ cdMo (julian_day_number y m 1)
        = cdMo (julian_day_number y m 1 + (daysInMonth y m - 1)))

/-- Endpoint check for the twelve months of one year. -/
def checkYearE (y : ℤ) : Bool :=
  (List.range 12).all fun i => checkMonthE y (i + 1)

/-- Endpoint check for `n` consecutive years starting at `a`. -/
def checkYearsE (a : ℤ) (n : ℕ) : Bool :=
  (List.range n).all fun i => checkYearE (a + i)

/-- A numeric-like Python value, distinguishing plain floats, plain lists and
numpy arrays (0-dimensional or 1-dimensional), as needed to model
`_to_array` and the storage of `delta_t`. -/
inductive NumLike where
  | pyfloat (q : ℚ) : NumLike
  | pylist (l : List ℚ) : NumLike
  | nparr0 (q : ℚ) : NumLike
  | nparr1 (l : List ℚ) : NumLike
deriving DecidableEq, Repr

/-- Source: `_to_array(a)`: values without a `shape` attribute are wrapped
with `numpy.array`; arrays are returned unchanged. -/
def _to_array : NumLike → NumLike
  | .pyfloat q => .nparr0 q
  | .pylist l => .nparr1 l
  | .nparr0 q => .nparr0 q
  | .nparr1 l => .nparr1 l

/-- A UTC calendar tuple `(year, month, day, hour, minute, second)` as passed
to the `utc=` keyword (the tuple branch of the constructor). -/
abbrev UTCTuple : Type := ℤ × ℤ × ℤ × ℚ × ℚ × ℚ

/-- State of a scalar `JulianDate` instance right after `__init__`:
`utc` and `tai` are present exactly when the constructor stored them,
`tt` is always present, and `delta_t` holds what line 129 stored. -/
structure JDState where
  utc? : Option UTCTuple
  tai? : Option ℚ
  tt : ℚ
  delta_t : NumLike
deriving DecidableEq, Repr

/-- Source: `JulianDate.__init__(utc, tai, tt, delta_t, cache)` for scalar
numeric `tai`/`tt` and tuple `utc` input.  The error raised when none of
`utc`, `tai`, `tt` is given is what the spec calls `ConfigurationError`; its message
is the `ValueError` message of the source.  Note the coerced
`self.delta_t = _to_array(delta_t)` of line 97 is overwritten by
`self.delta_t = delta_t` at line 129, so the stored `delta_t` is the raw
argument. -/
def JulianDate_init (table : List XRat × List ℚ)
    (utc : Option UTCTuple) (tai : Option ℚ) (tt : Option ℚ)
    (delta_t : NumLike) : Except String JDState :=
  let tai1 : Option ℚ :=
    match utc, tai with
    | some (y, mo, d, h, mi, s), none =>
        some (_utc_to_tai table.1 table.2 y mo d h mi s)
    | _, _ => tai
  let tt1 : Option ℚ :=
    match tai1, tt with
    | some a, none => some (a + tt_minus_tai)
    | _, _ => tt
  match tt1 with
  | none => .error "you must supply either utc, tai, or tt when building a JulianDate"
  | some t => .ok { utc? := utc, tai? := tai1, tt := t, delta_t := delta_t }

/-- Read of the `tai` attribute: the cached value if the constructor stored
one, otherwise the `__getattr__` derivation `self.tt - tt_minus_tai`. -/
def jd_tai (s : JDState) : ℚ :=
  match s.tai? with
  | some a => a
  | none => s.tt - tt_minus_tai

/-- Read of the `tdb` attribute: `self.tt + tdb_minus_tt(self.tt) / DAY_S`. -/
def jd_tdb (sine : ℚ → ℚ) (T0 : ℚ) (s : JDState) : ℚ :=
  s.tt + tdb_minus_tt sine T0 s.tt / DAY_S

/-- Read of the `ut1` attribute: `self.tt - self.delta_t / DAY_S`, under the
Python semantics of `/` for each kind of stored `delta_t` (a plain list does
not support division by a float). -/
def jd_ut1 (s : JDState) : Except String NumLike :=
  match s.delta_t with
  | .pyfloat q => .ok (.pyfloat (s.tt - q / DAY_S))
  | .nparr0 q => .ok (.nparr0 (s.tt - q / DAY_S))
  | .nparr1 l => .ok (.nparr1 (l.map (fun q => s.tt - q / DAY_S)))
  | .pylist _ => .error "TypeError: unsupported operand type(s) for /"

/-- Strict IEEE comparison on extended rationals, for `j < leap_dates[i-1]`. -/
def XRat.lt : XRat → XRat → Bool
  | .negInf, .negInf => false
  | .negInf, _ => true
  | .fin _, .negInf => false
  | .fin a, .fin b => a < b
  | .fin _, .posInf => true
  | .posInf, _ => false

/-- Source: `_half_second = 0.5 / DAY_S`. -/
def _half_second : ℚ := (1/2) / DAY_S

/-- Source: `_half_millisecond = 0.5e-3 / DAY_S`. -/
def _half_millisecond : ℚ := (1/2000) / DAY_S

/-- Source: `JulianDate._utc(offset)` for one scalar instant with TAI value
`tai` (numpy evaluates the same formulas elementwise on arrays).  Returns
`(year, month, day, hour, minute, second)`; `hour` and `minute` are the
`astype(int)` casts performed on line 204, `second` keeps its fraction and
includes the `s += is_leap_second` correction.  In the sentinel-bracketed
tables produced by `usno_leapseconds` the index `i` is at least 1, so the
`i - 1` of the source never wraps around. -/
def JulianDate_utc (table : List XRat × List ℚ) (offset : ℚ) (tai : ℚ) :
    ℤ × ℤ × ℤ × ℤ × ℤ × ℚ :=
  let tai2 := tai + offset
  let leap_reverse_dates := List.zipWith XRat.addQ table.1 (table.2.map (fun o => o / DAY_S))
  let i := searchsortedRight leap_reverse_dates (.fin tai2)
  let j := tai2 - table.2.getD i 0 / DAY_S
  let whole := pytrunc (pydivmod (j + 1/2) 1).1
  let fraction := (pydivmod (j + 1/2) 1).2
  let ymd := calendar_dateZ whole
  let h := pytrunc (pydivmod (fraction * 24) 1).1
  let hfrac := (pydivmod (fraction * 24) 1).2
  let m := pytrunc (pydivmod (hfrac * 3600) 60).1
  let s := (pydivmod (hfrac * 3600) 60).2
  let s2 := s + (if XRat.lt (.fin j) (table.1.getD (i - 1) .negInf) then 1 else 0)
  (ymd.1, ymd.2.1, ymd.2.2, h, m, s2)

/-- Source: `utc_iso(places=0)`: the fields fed to the format string
for ISO 8601 rendering; the integer conversion of the format truncates the
seconds float toward zero. -/
def utc_iso0_fields (table : List XRat × List ℚ) (tai : ℚ) : ℤ × ℤ × ℤ × ℤ × ℤ × ℤ :=
  let u := JulianDate_utc table _half_second tai
  (u.1, u.2.1, u.2.2.1, u.2.2.2.1, u.2.2.2.2.1, pytrunc u.2.2.2.2.2)

/-- The leap-second table produced by `usno_leapseconds` from the two USNO
lines surrounding the 1998-12-31 leap second: 1997-07-01 (JD 2450630.5,
TAI-UTC = 31 s) and 1999-01-01 (JD 2451179.5, TAI-UTC = 32 s). -/
def leapTable98 : List XRat × List ℚ :=
  ([.negInf, .fin 2450630.5, .fin 2451179.5, .posInf], [31, 31, 31, 32])

/-- State of an array-shaped `JulianDate` (constructed from `tai=` or `tt=`
arrays of N instants); numpy evaluates every derived formula elementwise. -/
structure JDStateArr where
  tai? : Option (List ℚ)
  tt : List ℚ
  delta_t : ℚ
deriving Repr

/-- Source: `JulianDate.__init__` for array-shaped `tai`/`tt` input (scalar
`delta_t`); the same control flow as the scalar case, with
`tt = tai + tt_minus_tai` computed elementwise. -/
def JulianDate_init_arr (tai : Option (List ℚ)) (tt : Option (List ℚ))
    (delta_t : ℚ) : Except String JDStateArr :=
  let tt1 : Option (List ℚ) :=
    match tai, tt with
    | some a, none => some (a.map (fun x => x + tt_minus_tai))
    | _, _ => tt
  match tt1 with
  | none => .error "you must supply either utc, tai, or tt when building a JulianDate"
  | some t => .ok { tai? := tai, tt := t, delta_t := delta_t }

/-- Read of `tai` on an array instance: elementwise `tt - tt_minus_tai`. -/
def jd_tai_arr (s : JDStateArr) : List ℚ :=
  match s.tai? with
  | some a => a
  | none => s.tt.map (fun t => t - tt_minus_tai)

/-- Read of `tdb` on an array instance. -/
def jd_tdb_arr (sine : ℚ → ℚ) (T0 : ℚ) (s : JDStateArr) : List ℚ :=
  s.tt.map (fun t => t + tdb_minus_tt sine T0 t / DAY_S)

/-- Read of `ut1` on an array instance (scalar `delta_t` broadcasts). -/
def jd_ut1_arr (s : JDStateArr) : List ℚ :=
  s.tt.map (fun t => t - s.delta_t / DAY_S)

/-- Source: `cal_date(jd)` applied to an array argument, as happens in the
`utc` branch of `__getattr__` on an array instance: `int(jd)` converts only
size-1 arrays to a Python scalar and raises `TypeError` otherwise. -/
def cal_date_arr (jd : List ℚ) : Except String (ℤ × ℤ × ℤ × List ℚ) :=
  match jd with
  | [x] =>
      let c := cal_date x
      .ok (c.1, c.2.1, c.2.2.1, [c.2.2.2])
  | _ => .error "TypeError: only size-1 arrays can be converted to Python scalars"

/-- Source: the `utc` branch of `__getattr__` on an array instance
(lines 241-251): leap-second lookup elementwise, then `cal_date` on the
array, then elementwise divmods. -/
def utc_getattr_arr (table : List XRat × List ℚ) (tai : List ℚ) :
    Except String (ℤ × ℤ × ℤ × List ℚ × List ℚ × List ℚ) :=
  let j := tai.map (fun t2 =>
    t2 - table.2.getD
      (searchsortedRight
        (List.zipWith XRat.addQ table.1 (table.2.map (fun o => o / DAY_S)))
        (.fin t2)) 0 / DAY_S)
  match cal_date_arr j with
  | .error e => .error e
  | .ok (y, mon, d, hArr) =>
      let h := hArr.map (fun x => (pydivmod x 1).1)
      let hfrac := hArr.map (fun x => (pydivmod x 1).2)
      let m := hfrac.map (fun x => (pydivmod (x * 3600) 60).1)
      let s := hfrac.map (fun x => (pydivmod (x * 3600) 60).2)
      .ok (y, mon, d, h, m, s)

/-- Source: `utc_iso(places=0)` on an array instance: one fields tuple per
element, in input order. -/
def utc_iso0_arr (table : List XRat × List ℚ) (s : JDStateArr) :
    List (ℤ × ℤ × ℤ × ℤ × ℤ × ℤ) :=
  (jd_tai_arr s).map (utc_iso0_fields table)

/-- Source: `utc_strftime(format)` on an array instance: the 9-tuple passed
to `strftime` per element; `strftime` itself is the external formatter. -/
def utc_strftime_arr (fmt : ℤ × ℤ × ℤ × ℤ × ℤ × ℤ × ℤ × ℤ × ℤ → String)
    (table : List XRat × List ℚ) (s : JDStateArr) : List String :=
  (jd_tai_arr s).map (fun tai =>
    let u := JulianDate_utc table _half_second tai
    fmt (u.1, u.2.1, u.2.2.1, u.2.2.2.1, u.2.2.2.2.1, pytrunc u.2.2.2.2.2, 0, 0, 0))

/-- Source: `utc_datetime()` on an array instance: the arguments handed to
`datetime(...)` per element (year, month, day, hour, minute, second,
microsecond). -/
def utc_datetime_arr (table : List XRat × List ℚ) (s : JDStateArr) :
    List (ℤ × ℤ × ℤ × ℤ × ℤ × ℤ × ℤ) :=
  (jd_tai_arr s).map (fun tai =>
    let u := JulianDate_utc table _half_millisecond tai
    let sf := pydivmod u.2.2.2.2.2 1
    (u.1, u.2.1, u.2.2.1, u.2.2.2.1, u.2.2.2.2.1, pytrunc sf.1, pytrunc (sf.2 * 1000) * 1000))

theorem pyfdiv_floor (a b : ℚ) : pyfdiv a b = ((⌊a / b⌋ : ℤ) : ℚ) := by
  unfold pyfdiv
  rw [Rat.floor_def', ← Rat.floor_def]

theorem calendar_dateZ_stages (J : ℤ) :
    calendar_dateZ J =
      (100 * (cdN J - 49) + cdM J + cdKK J, cdMo J + 2 - 12 * cdKK J, cdDay J) := rfl

set_option maxHeartbeats 4000000 in
set_option maxRecDepth 20000 in
theorem checkYearsE_1800_20 : checkYearsE 1800 20 = true := by decide

set_option maxHeartbeats 4000000 in
set_option maxRecDepth 20000 in
theorem checkYearsE_1820_20 : checkYearsE 1820 20 = true := by decide

set_option maxHeartbeats 4000000 in
set_option maxRecDepth 20000 in
theorem checkYearsE_1840_20 : checkYearsE 1840 20 = true := by decide

set_option maxHeartbeats 4000000 in
set_option maxRecDepth 20000 in
theorem checkYearsE_1860_20 : checkYearsE 1860 20 = true := by decide

set_option maxHeartbeats 4000000 in
set_option maxRecDepth 20000 in
theorem checkYearsE_1880_20 : checkYearsE 1880 20 = true := by decide

set_option maxHeartbeats 4000000 in
set_option maxRecDepth 20000 in
theorem checkYearsE_1900_20 : checkYearsE 1900 20 = true := by decide

set_option maxHeartbeats 4000000 in
set_option maxRecDepth 20000 in
theorem checkYearsE_1920_20 : checkYearsE 1920 20 = true := by decide

set_option maxHeartbeats 4000000 in
set_option maxRecDepth 20000 in
theorem checkYearsE_1940_20 : checkYearsE 1940 20 = true := by decide

set_option maxHeartbeats 4000000 in
set_option maxRecDepth 20000 in
theorem checkYearsE_1960_20 : checkYearsE 1960 20 = true := by decide

set_option maxHeartbeats 4000000 in
set_option maxRecDepth 20000 in
theorem checkYearsE_1980_20 : checkYearsE 1980 20 = true := by decide

set_option maxHeartbeats 4000000 in
set_option maxRecDepth 20000 in
theorem checkYearsE_2000_20 : checkYearsE 2000 20 = true := by decide

set_option maxHeartbeats 4000000 in
set_option maxRecDepth 20000 in
theorem checkYearsE_2020_20 : checkYearsE 2020 20 = true := by decide

set_option maxHeartbeats 4000000 in
set_option maxRecDepth 20000 in
theorem checkYearsE_2040_20 : checkYearsE 2040 20 = true := by decide

set_option maxHeartbeats 4000000 in
set_option maxRecDepth 20000 in
theorem checkYearsE_2060_20 : checkYearsE 2060 20 = true := by decide

set_option maxHeartbeats 4000000 in
set_option maxRecDepth 20000 in
theorem checkYearsE_2080_20 : checkYearsE 2080 20 = true := by decide

set_option maxHeartbeats 4000000 in
set_option maxRecDepth 20000 in
theorem checkYearsE_2100_20 : checkYearsE 2100 20 = true := by decide

set_option maxHeartbeats 4000000 in
set_option maxRecDepth 20000 in
theorem checkYearsE_2120_20 : checkYearsE 2120 20 = true := by decide

set_option maxHeartbeats 4000000 in
set_option maxRecDepth 20000 in
theorem checkYearsE_2140_20 : checkYearsE 2140 20 = true := by decide

set_option maxHeartbeats 4000000 in
set_option maxRecDepth 20000 in
theorem checkYearsE_2160_20 : checkYearsE 2160 20 = true := by decide

set_option maxHeartbeats 4000000 in
set_option maxRecDepth 20000 in
theorem checkYearsE_2180_20 : checkYearsE 2180 20 = true := by decide

set_option maxHeartbeats 4000000 in
set_option maxRecDepth 20000 in
theorem checkYearsE_2200_20 : checkYearsE 2200 20 = true := by decide

theorem checkYearsE_extract {a : ℤ} {n : ℕ} (h : checkYearsE a n = true)
    {y : ℤ} (h1 : a ≤ y) (h2 : y < a + n) : checkYearE y = true := by
  unfold checkYearsE at h
  simp only [List.all_eq_true, List.mem_range] at h
  have h3 := h (y - a).toNat (by omega)
  rwa [show a + (((y - a).toNat : ℕ) : ℤ) = y by omega] at h3

theorem checkYearE_range {y : ℤ} (h1 : 1800 ≤ y) (h2 : y ≤ 2200) :
    checkYearE y = true := by
  rcases lt_or_le y 1820 with h0 | h0
  · exact checkYearsE_extract checkYearsE_1800_20 h1 (by omega)
  rcases lt_or_le y 1840 with h1 | h1
  · exact checkYearsE_extract checkYearsE_1820_20 h0 (by omega)
  rcases lt_or_le y 1860 with h2 | h2
  · exact checkYearsE_extract checkYearsE_1840_20 h1 (by omega)
  rcases lt_or_le y 1880 with h3 | h3
  · exact checkYearsE_extract checkYearsE_1860_20 h2 (by omega)
  rcases lt_or_le y 1900 with h4 | h4
  · exact checkYearsE_extract checkYearsE_1880_20 h3 (by omega)
  rcases lt_or_le y 1920 with h5 | h5
  · exact checkYearsE_extract checkYearsE_1900_20 h4 (by omega)
  rcases lt_or_le y 1940 with h6 | h6
  · exact checkYearsE_extract checkYearsE_1920_20 h5 (by omega)
  rcases lt_or_le y 1960 with h7 | h7
  · exact checkYearsE_extract checkYearsE_1940_20 h6 (by omega)
  rcases lt_or_le y 1980 with h8 | h8
  · exact checkYearsE_extract checkYearsE_1960_20 h7 (by omega)
  rcases lt_or_le y 2000 with h9 | h9
  · exact checkYearsE_extract checkYearsE_1980_20 h8 (by omega)
  rcases lt_or_le y 2020 with h10 | h10
  · exact checkYearsE_extract checkYearsE_2000_20 h9 (by omega)
  rcases lt_or_le y 2040 with h11 | h11
  · exact checkYearsE_extract checkYearsE_2020_20 h10 (by omega)
  rcases lt_or_le y 2060 with h12 | h12
  · exact checkYearsE_extract checkYearsE_2040_20 h11 (by omega)
  rcases lt_or_le y 2080 with h13 | h13
  · exact checkYearsE_extract checkYearsE_2060_20 h12 (by omega)
  rcases lt_or_le y 2100 with h14 | h14
  · exact checkYearsE_extract checkYearsE_2080_20 h13 (by omega)
  rcases lt_or_le y 2120 with h15 | h15
  · exact checkYearsE_extract checkYearsE_2100_20 h14 (by omega)
  rcases lt_or_le y 2140 with h16 | h16
  · exact checkYearsE_extract checkYearsE_2120_20 h15 (by omega)
  rcases lt_or_le y 2160 with h17 | h17
  · exact checkYearsE_extract checkYearsE_2140_20 h16 (by omega)
  rcases lt_or_le y 2180 with h18 | h18
  · exact checkYearsE_extract checkYearsE_2160_20 h17 (by omega)
  rcases lt_or_le y 2200 with h19 | h19
  · exact checkYearsE_extract checkYearsE_2180_20 h18 (by omega)
  exact checkYearsE_extract checkYearsE_2200_20 h19 (by omega)

theorem cdN_mono {a b : ℤ} (h : a ≤ b) : cdN a ≤ cdN b := by
  unfold cdN; omega

theorem cdN_const {J1 J2 J : ℤ} (hE : cdN J1 = cdN J2)
    (h1 : J1 ≤ J) (h2 : J ≤ J2) : cdN J = cdN J1 :=
  le_antisymm (hE ▸ cdN_mono h2) (cdN_mono h1)

theorem cdK1_shift {J1 J : ℤ} (hN : cdN J = cdN J1) :
    cdK1 J = cdK1 J1 + (J - J1) := by
  unfold cdK1; rw [hN]; ring

theorem cdM_mono {a b : ℤ} (h : cdK1 a ≤ cdK1 b) : cdM a ≤ cdM b := by
  unfold cdM; omega

theorem cdM_const {J1 J2 J : ℤ} (hE : cdM J1 = cdM J2)
    (h1 : cdK1 J1 ≤ cdK1 J) (h2 : cdK1 J ≤ cdK1 J2) : cdM J = cdM J1 :=
  le_antisymm (hE ▸ cdM_mono h2) (cdM_mono h1)

theorem cdK2_shift {J1 J : ℤ} (hN : cdN J = cdN J1) (hM : cdM J = cdM J1) :
    cdK2 J = cdK2 J1 + (J - J1) := by
  unfold cdK2; rw [hM, cdK1_shift hN]; ring

theorem cdMo_mono {a b : ℤ} (h : cdK2 a ≤ cdK2 b) : cdMo a ≤ cdMo b := by
  unfold cdMo; omega

theorem cdMo_const {J1 J2 J : ℤ} (hE : cdMo J1 = cdMo J2)
    (h1 : cdK2 J1 ≤ cdK2 J) (h2 : cdK2 J ≤ cdK2 J2) : cdMo J = cdMo J1 :=
  le_antisymm (hE ▸ cdMo_mono h2) (cdMo_mono h1)

theorem julian_day_number_linear (y m d : ℤ) :
    julian_day_number y m d = julian_day_number y m 1 + (d - 1) := by
  unfold julian_day_number; ring

/-- From the decided endpoint check for a month, the calendar algorithm is
correct on every day of that month. -/
theorem checkMonthE_interp {y m : ℤ} (hc : checkMonthE y m = true)
    {d : ℤ} (hd1 : 1 ≤ d) (hd2 : d ≤ daysInMonth y m) :
    calendar_dateZ (julian_day_number y m d) = (y, m, d) := by
  unfold checkMonthE at hc
  obtain ⟨h1, hN, hM, hMo⟩ := of_decide_eq_true hc
  set J1 := julian_day_number y m 1 with hJ1
  set J2 := J1 + (daysInMonth y m - 1) with hJ2
  set J := julian_day_number y m d with hJ
  have hJeq : J = J1 + (d - 1) := julian_day_number_linear y m d
  have hb1 : J1 ≤ J := by omega
  have hb2 : J ≤ J2 := by omega
  have hNJ : cdN J = cdN J1 := cdN_const hN hb1 hb2
  have hNJ2 : cdN J2 = cdN J1 := cdN_const hN (by omega) (le_refl J2)
  have hK1J : cdK1 J = cdK1 J1 + (d - 1) := by
    rw [cdK1_shift hNJ]; omega
  have hK1J2 : cdK1 J2 = cdK1 J1 + (daysInMonth y m - 1) := by
    rw [cdK1_shift hNJ2]; omega
  have hMJ : cdM J = cdM J1 := cdM_const hM (by omega) (by omega)
  have hK2J : cdK2 J = cdK2 J1 + (d - 1) := by
    rw [cdK2_shift hNJ hMJ]; omega
  have hMoJ : cdMo J = cdMo J1 := by
    have hMJ2 : cdM J2 = cdM J1 := cdM_const hM (by omega) (by omega)
    have hK2J2 : cdK2 J2 = cdK2 J1 + (daysInMonth y m - 1) := by
      rw [cdK2_shift hNJ2 hMJ2]; omega
    exact cdMo_const hMo (by omega) (by omega)
  have hKKJ : cdKK J = cdKK J1 := by unfold cdKK; rw [hMoJ]
  have hDayJ : cdDay J = cdDay J1 + (d - 1) := by
    unfold cdDay; rw [hMoJ, hK2J]; ring
  rw [calendar_dateZ_stages] at h1 ⊢
  simp only [Prod.mk.injEq] at h1 ⊢
  refine ⟨?_, ?_, ?_⟩ <;> omega

theorem checkMonthE_of_range {y m : ℤ} (hy1 : 1800 ≤ y) (hy2 : y ≤ 2200)
    (hm1 : 1 ≤ m) (hm2 : m ≤ 12) : checkMonthE y m = true := by
  have hyy := checkYearE_range hy1 hy2
  unfold checkYearE at hyy
  simp only [List.all_eq_true, List.mem_range] at hyy
  have := hyy (m - 1).toNat (by omega)
  rwa [show (((m - 1).toNat : ℤ)) + 1 = m by omega] at this

theorem calendar_julian_inverseZ {y m d : ℤ} (hy1 : 1800 ≤ y) (hy2 : y ≤ 2200)
    (hm1 : 1 ≤ m) (hm2 : m ≤ 12) (hd1 : 1 ≤ d) (hd2 : d ≤ daysInMonth y m) :
    calendar_dateZ (julian_day_number y m d) = (y, m, d) :=
  checkMonthE_interp (checkMonthE_of_range hy1 hy2 hm1 hm2) hd1 hd2

theorem pyfdiv_intCast_natCast (a : ℤ) (b : ℕ) :
    pyfdiv (a : ℚ) (b : ℚ) = ((a / (b : ℤ) : ℤ) : ℚ) := by
  rw [pyfdiv_floor, Rat.floor_intCast_div_natCast]

theorem pyfdiv_cast146097 (a : ℤ) :
    pyfdiv (a : ℚ) 146097 = ((a / 146097 : ℤ) : ℚ) := by
  simpa using pyfdiv_intCast_natCast a 146097

theorem pyfdiv_cast4 (a : ℤ) : pyfdiv (a : ℚ) 4 = ((a / 4 : ℤ) : ℚ) := by
  simpa using pyfdiv_intCast_natCast a 4

theorem pyfdiv_cast1461001 (a : ℤ) :
    pyfdiv (a : ℚ) 1461001 = ((a / 1461001 : ℤ) : ℚ) := by
  simpa using pyfdiv_intCast_natCast a 1461001

theorem pyfdiv_cast2447 (a : ℤ) : pyfdiv (a : ℚ) 2447 = ((a / 2447 : ℤ) : ℚ) := by
  simpa using pyfdiv_intCast_natCast a 2447

theorem pyfdiv_cast80 (a : ℤ) : pyfdiv (a : ℚ) 80 = ((a / 80 : ℤ) : ℚ) := by
  simpa using pyfdiv_intCast_natCast a 80

theorem pyfdiv_cast11 (a : ℤ) : pyfdiv (a : ℚ) 11 = ((a / 11 : ℤ) : ℚ) := by
  simpa using pyfdiv_intCast_natCast a 11

theorem cd_stage1 (n : ℤ) :
    pyfdiv (4 * ((n : ℚ) + 68569)) 146097 = ((cdN n : ℤ) : ℚ) := by
  rw [show (4 : ℚ) * ((n : ℚ) + 68569) = ((4 * (n + 68569) : ℤ) : ℚ) by push_cast; ring,
    pyfdiv_cast146097]
  simp only [cdN]

theorem cd_stage2 (n : ℤ) :
    ((n : ℚ) + 68569) - pyfdiv (146097 * ((cdN n : ℤ) : ℚ) + 3) 4 = ((cdK1 n : ℤ) : ℚ) := by
  rw [show (146097 : ℚ) * ((cdN n : ℤ) : ℚ) + 3 = ((146097 * cdN n + 3 : ℤ) : ℚ) by
    push_cast; ring, pyfdiv_cast4]
  simp only [cdK1]
  push_cast
  ring

theorem cd_stage3 (n : ℤ) :
    pyfdiv (4000 * (((cdK1 n : ℤ) : ℚ) + 1)) 1461001 = ((cdM n : ℤ) : ℚ) := by
  rw [show (4000 : ℚ) * (((cdK1 n : ℤ) : ℚ) + 1) = ((4000 * (cdK1 n + 1) : ℤ) : ℚ) by
    push_cast; ring, pyfdiv_cast1461001]
  simp only [cdM]

theorem cd_stage4 (n : ℤ) :
    ((cdK1 n : ℤ) : ℚ) - pyfdiv (1461 * ((cdM n : ℤ) : ℚ)) 4 + 31 = ((cdK2 n : ℤ) : ℚ) := by
  rw [show (1461 : ℚ) * ((cdM n : ℤ) : ℚ) = ((1461 * cdM n : ℤ) : ℚ) by push_cast; ring,
    pyfdiv_cast4]
  simp only [cdK2]
  push_cast
  ring

theorem cd_stage5 (n : ℤ) :
    pyfdiv (80 * ((cdK2 n : ℤ) : ℚ)) 2447 = ((cdMo n : ℤ) : ℚ) := by
  rw [show (80 : ℚ) * ((cdK2 n : ℤ) : ℚ) = ((80 * cdK2 n : ℤ) : ℚ) by push_cast; ring,
    pyfdiv_cast2447]
  simp only [cdMo]

theorem cd_stage6 (n : ℤ) :
    ((cdK2 n : ℤ) : ℚ) - pyfdiv (2447 * ((cdMo n : ℤ) : ℚ)) 80 = ((cdDay n : ℤ) : ℚ) := by
  rw [show (2447 : ℚ) * ((cdMo n : ℤ) : ℚ) = ((2447 * cdMo n : ℤ) : ℚ) by push_cast; ring,
    pyfdiv_cast80]
  simp only [cdDay]
  push_cast
  ring

theorem cd_stage7 (n : ℤ) : pyfdiv ((cdMo n : ℤ) : ℚ) 11 = ((cdKK n : ℤ) : ℚ) := by
  rw [pyfdiv_cast11]
  simp only [cdKK]

/-- On integer inputs, the float reading of `calendar_date` agrees with the
integer reading `calendar_dateZ`. -/
theorem calendar_date_intCast (n : ℤ) :
    calendar_date ((n : ℤ) : ℚ) =
      (((calendar_dateZ n).1 : ℚ), ((calendar_dateZ n).2.1 : ℚ), ((calendar_dateZ n).2.2 : ℚ)) := by
  simp only [calendar_date]
  rw [cd_stage1, cd_stage2, cd_stage3, cd_stage4, cd_stage5, cd_stage6, cd_stage7,
    calendar_dateZ_stages]
  refine Prod.ext ?_ (Prod.ext ?_ ?_) <;> push_cast <;> ring

theorem julian_date_plus_half (y m d : ℤ) :
    julian_date y m d 0 0 0 + 1/2 = ((julian_day_number y m d : ℤ) : ℚ) := by
  simp only [julian_date, julian_day_number]
  norm_num

/-- C3 (amended): for every proleptic Gregorian date (y, m, d) with y between
1800 and 2200, m in 1..12 and d a valid day of that month,
`calendar_date(julian_date(y, m, d, 0, 0, 0) + 0.5)` returns exactly
(y, m, d).  (Adding the half day first is what `JulianDate._utc` does before
calling `calendar_date`; without it the day component comes back as d - 0.5,
see the counterexample.) -/
theorem C3_calendar_julian_roundtrip (y m d : ℤ) (hy1 : 1800 ≤ y) (hy2 : y ≤ 2200)
    (hm1 : 1 ≤ m) (hm2 : m ≤ 12) (hd1 : 1 ≤ d) (hd2 : d ≤ daysInMonth y m) :
    calendar_date (julian_date y m d 0 0 0 + 1/2) = ((y : ℚ), (m : ℚ), (d : ℚ)) := by
  rw [julian_date_plus_half, calendar_date_intCast,
    calendar_julian_inverseZ hy1 hy2 hm1 hm2 hd1 hd2]

/-- C3 witness: the theorem applied at the concrete date 2000-02-29. -/
theorem C3_calendar_julian_roundtrip_witness :
    calendar_date (julian_date 2000 2 29 0 0 0 + 1/2) = ((2000 : ℚ), (2 : ℚ), (29 : ℚ)) :=
  C3_calendar_julian_roundtrip 2000 2 29 (by norm_num) (by norm_num) (by norm_num)
    (by norm_num) (by norm_num) (by decide)

/-- C3 counterexample: applying `calendar_date` directly to
`julian_date(2000, 1, 1, 0, 0, 0)` (a half-integer) yields day 0.5, not 1:
the claim as stated fails. -/
theorem C3_counterexample_20000101 :
    calendar_date (julian_date 2000 1 1 0 0 0) = (2000, 1, 1/2)
    ∧ calendar_date (julian_date 2000 1 1 0 0 0) ≠ ((2000 : ℚ), (1 : ℚ), (1 : ℚ)) := by
  have h : calendar_date (julian_date 2000 1 1 0 0 0) = (2000, 1, 1/2) := by
    simp only [calendar_date, julian_date, pyfdiv_floor]
    norm_num
  refine ⟨h, ?_⟩
  rw [h]
  intro hc
  have h22 := congrArg (fun p => p.2.2) hc
  norm_num at h22

/-- C1: constructing a JulianDate with none of utc, tai, tt supplied fails
with the configuration error (a `ValueError` in the source), whose message
carries "you must supply either utc, tai, or tt", and no instance is
produced. -/
theorem C1_configuration_error (table : List XRat × List ℚ) (delta_t : NumLike) :
    JulianDate_init table none none none delta_t
      = .error "you must supply either utc, tai, or tt when building a JulianDate"
    ∧ "you must supply either utc, tai, or tt when building a JulianDate"
        = "you must supply either utc, tai, or tt" ++ " when building a JulianDate" :=
  ⟨rfl, rfl⟩

/-- C2: for every JulianDate built from `tt`, reading `tai` gives
`tt - 32.184/86400`, and building a second JulianDate from that `tai` and
reading its `tt` recovers the original value exactly (hence within 1e-9
days). -/
theorem C2_tt_tai_roundtrip (t : ℚ) (table table2 : List XRat × List ℚ)
    (dt dt2 : NumLike) :
    ∃ s1 s2,
      JulianDate_init table none none (some t) dt = .ok s1
      ∧ jd_tai s1 = t - 32.184 / 86400
      ∧ JulianDate_init table2 none (some (jd_tai s1)) none dt2 = .ok s2
      ∧ s2.tt = t
      ∧ |s2.tt - t| < 1/1000000000 := by
  refine ⟨_, _, rfl, ?_, rfl, ?_, ?_⟩
  · show t - tt_minus_tai = t - 32.184 / 86400
    unfold tt_minus_tai DAY_S
    norm_num
  · show t - tt_minus_tai + tt_minus_tai = t
    ring
  · show |t - tt_minus_tai + tt_minus_tai - t| < 1/1000000000
    rw [show t - tt_minus_tai + tt_minus_tai - t = 0 by ring]
    norm_num

/-- C4 (amended). -/
theorem C4_leap_lookup (J1 J2 O0 O1 j : ℚ) (hs : J1 ≤ J2) :
    (j < J1 → leapLookup [.negInf, .fin J1, .fin J2, .posInf] [O0, O0, O1, O1] j = O0)
    ∧ (J1 ≤ j → leapLookup [.negInf, .fin J1, .fin J2, .posInf] [O0, O0, O1, O1] j = O1) := by
  unfold leapLookup searchsortedRight
  simp only [List.countP_cons, List.countP_nil, XRat.le]
  constructor
  · intro h
    have hn1 : ¬ (J1 ≤ j) := by linarith
    have hn2 : ¬ (J2 ≤ j) := by linarith
    simp [hn1, hn2, List.getD]
  · intro h
    rcases le_or_lt J2 j with h2 | h2
    · simp [h, h2, List.getD]
    · simp [h, not_le.mpr h2, List.getD]

theorem C4_witness : leapLookup [.negInf, .fin 0, .fin 1, .posInf] [5, 5, 6, 6] (-1) = 5 :=
  (C4_leap_lookup 0 1 5 6 (-1) (by norm_num)).1 (by norm_num)

/-- C4 counterexample. -/
theorem C4_counterexample :
    (1 : ℚ) < 2
    ∧ leapLookup [.negInf, .fin 1, .fin 2, .posInf] [10, 10, 11, 11] 1 = 11
    ∧ (11 : ℚ) ≠ 10 := by
  refine ⟨by norm_num, ?_, by norm_num⟩
  unfold leapLookup searchsortedRight
  simp only [List.countP_cons, List.countP_nil, XRat.le]
  norm_num [List.getD]

/-- C7: precedence. -/
theorem C7_precedence (tbl tbl2 : List XRat × List ℚ) (u : UTCTuple) (a t : ℚ)
    (dt : NumLike) :
    JulianDate_init tbl (some u) (some a) none dt
        = JulianDate_init tbl2 (some u) (some a) none dt
    ∧ JulianDate_init tbl (some u) (some a) none dt
        = .ok { utc? := some u, tai? := some a, tt := a + tt_minus_tai, delta_t := dt }
    ∧ JulianDate_init tbl (some u) (some a) (some t) dt
        = .ok { utc? := some u, tai? := some a, tt := t, delta_t := dt } := by
  obtain ⟨y0, mo0, d0, h0, mi0, s0⟩ := u
  exact ⟨rfl, rfl, rfl⟩

/-- C9: leap-table independence of tt/tai/tdb/ut1 reads when utc not supplied. -/
theorem C9_table_independence (tbl tbl2 : List XRat × List ℚ)
    (tai? tt? : Option ℚ) (dt : NumLike) (sine : ℚ → ℚ) (T0 : ℚ) :
    (JulianDate_init tbl none tai? tt? dt).map
        (fun s => (s.tt, jd_tai s, jd_tdb sine T0 s, jd_ut1 s))
      = (JulianDate_init tbl2 none tai? tt? dt).map
        (fun s => (s.tt, jd_tai s, jd_tdb sine T0 s, jd_ut1 s)) := by
  cases tai? <;> cases tt? <;> rfl

/-- C6: the stored delta_t is the raw argument, not the coerced array. -/
theorem C6_delta_t_raw :
    JulianDate_init ([], []) none none (some 2451545) (.pyfloat 0)
      = .ok { utc? := none, tai? := none, tt := 2451545, delta_t := .pyfloat 0 }
    ∧ NumLike.pyfloat 0 ≠ _to_array (.pyfloat 0)
    ∧ JulianDate_init ([], []) none none (some 2451545) (.pylist [1])
      = .ok { utc? := none, tai? := none, tt := 2451545, delta_t := .pylist [1] }
    ∧ jd_ut1 { utc? := none, tai? := none, tt := 2451545, delta_t := .pylist [1] }
      = .error "TypeError: unsupported operand type(s) for /" :=
  ⟨rfl, by simp [_to_array], rfl, rfl⟩

/-- C10 (amended): table shape for a nonempty parsed file. -/
theorem C10_usno_shape (parsed : List (ℚ × ℚ)) (h : parsed ≠ []) :
    ∃ dates offsets, usno_leapseconds parsed = .ok (dates, offsets)
      ∧ dates.length = parsed.length + 2
      ∧ offsets.length = parsed.length + 2
      ∧ dates = XRat.negInf :: ((parsed.map Prod.fst).map XRat.fin ++ [XRat.posInf])
      ∧ offsets = (parsed.map Prod.snd).headI
          :: (parsed.map Prod.snd).headI :: parsed.map Prod.snd := by
  match parsed, h with
  | (d0, o0) :: ps, _ =>
    refine ⟨_, _, rfl, ?_, ?_, rfl, rfl⟩
    · simp
    · simp

theorem C10_witness :
    ∃ dates offsets,
      usno_leapseconds [((2450630 : ℚ), (31 : ℚ)), ((2451179 : ℚ), (32 : ℚ))]
        = .ok (dates, offsets)
      ∧ dates.length = 4 ∧ offsets.length = 4
      ∧ dates = XRat.negInf :: (([(2450630 : ℚ), (2451179 : ℚ)]).map XRat.fin ++ [XRat.posInf])
      ∧ offsets = (31 : ℚ) :: (31 : ℚ) :: [(31 : ℚ), (32 : ℚ)] := by
  have h := C10_usno_shape [((2450630 : ℚ), (31 : ℚ)), ((2451179 : ℚ), (32 : ℚ))] (by simp)
  simpa using h

/-- C10 counterexample: the empty file raises IndexError. -/
theorem C10_counterexample :
    usno_leapseconds [] = .error "IndexError: list index out of range" := rfl

theorem ratFloor_eq (q : ℚ) : q.floor = ⌊q⌋ := by
  rw [Rat.floor_def', ← Rat.floor_def]

theorem leapTable98_from_usno :
    usno_leapseconds [(2450630.5, 31), (2451179.5, 32)] = .ok leapTable98 := rfl

theorem pytrunc_intCast (n : ℤ) : pytrunc (n : ℚ) = n := by
  unfold pytrunc
  simp only [ratFloor_eq]
  split
  · exact_mod_cast Int.floor_intCast n
  · rw [show -(n : ℚ) = ((-n : ℤ) : ℚ) by push_cast; ring, Int.floor_intCast]
    ring

theorem pytrunc_of_nonneg {x : ℚ} (h : 0 ≤ x) : pytrunc x = ⌊x⌋ := by
  unfold pytrunc
  rw [if_pos h, ratFloor_eq]

theorem pydivmod_fst (a b : ℚ) : (pydivmod a b).1 = ((⌊a / b⌋ : ℤ) : ℚ) := by
  simp [pydivmod, pyfdiv_floor]

theorem pydivmod_snd (a b : ℚ) : (pydivmod a b).2 = a - b * ((⌊a / b⌋ : ℤ) : ℚ) := by
  simp [pydivmod, pyfdiv_floor]

/-- Evaluation of `JulianDate._utc` given the values of the searchsorted
index and of the three floor computations. -/
theorem JulianDate_utc_compute (table : List XRat × List ℚ) (offset tai : ℚ)
    (i : ℕ) (w hh mm : ℤ)
    (hi : searchsortedRight
        (List.zipWith XRat.addQ table.1 (table.2.map (fun o => o / DAY_S)))
        (.fin (tai + offset)) = i)
    (hw : ⌊(tai + offset - table.2.getD i 0 / DAY_S + 1/2) / 1⌋ = w)
    (hh2 : ⌊((tai + offset - table.2.getD i 0 / DAY_S + 1/2 - 1 * (w : ℚ)) * 24) / 1⌋ = hh)
    (hm2 : ⌊(((tai + offset - table.2.getD i 0 / DAY_S + 1/2 - 1 * (w : ℚ)) * 24
        - 1 * (hh : ℚ)) * 3600) / 60⌋ = mm) :
    JulianDate_utc table offset tai =
      ((calendar_dateZ w).1, (calendar_dateZ w).2.1, (calendar_dateZ w).2.2, hh, mm,
        ((tai + offset - table.2.getD i 0 / DAY_S + 1/2 - 1 * (w : ℚ)) * 24
            - 1 * (hh : ℚ)) * 3600 - 60 * (mm : ℚ)
          + (if XRat.lt (.fin (tai + offset - table.2.getD i 0 / DAY_S))
              (table.1.getD (i - 1) .negInf) then 1 else 0)) := by
  unfold JulianDate_utc
  simp only [pydivmod_fst, pydivmod_snd]
  rw [hi, hw, hh2, hm2, pytrunc_intCast, pytrunc_intCast, pytrunc_intCast]

set_option maxHeartbeats 1000000 in
theorem C5_leap_display (q : ℚ) (h0 : 0 ≤ q) (h1 : q < 1/2) :
    utc_iso0_fields leapTable98 (2451179.5 + (31 + q)/86400) = (1998, 12, 31, 23, 59, 60) := by
  have hi : searchsortedRight
      (List.zipWith XRat.addQ leapTable98.1 (leapTable98.2.map (fun o => o / DAY_S)))
      (.fin (2451179.5 + (31 + q)/86400 + _half_second)) = 3 := by
    simp only [leapTable98, DAY_S, _half_second, List.map_cons, List.map_nil,
      List.zipWith_cons_cons, List.zipWith_nil_right, XRat.addQ, searchsortedRight,
      List.countP_cons, List.countP_nil, XRat.le, decide_eq_true_eq]
    rw [if_pos (by norm_num; linarith : (2450630.5 : ℚ) + 31 / 86400 ≤
          2451179.5 + (31 + q) / 86400 + 1/2 / 86400),
        if_pos (by norm_num; linarith : (2451179.5 : ℚ) + 31 / 86400 ≤
          2451179.5 + (31 + q) / 86400 + 1/2 / 86400)]
    norm_num
  have hw : ⌊(2451179.5 + (31 + q)/86400 + _half_second
      - leapTable98.2.getD 3 0 / DAY_S + 1/2) / 1⌋ = 2451179 := by
    rw [show leapTable98.2.getD 3 0 = 32 from rfl, div_one, Int.floor_eq_iff]
    constructor
    · push_cast
      unfold _half_second DAY_S
      norm_num
      linarith
    · push_cast
      unfold _half_second DAY_S
      norm_num
      linarith
  have hh2 : ⌊((2451179.5 + (31 + q)/86400 + _half_second
      - leapTable98.2.getD 3 0 / DAY_S + 1/2 - 1 * ((2451179 : ℤ) : ℚ)) * 24) / 1⌋ = 23 := by
    rw [show leapTable98.2.getD 3 0 = 32 from rfl, div_one, Int.floor_eq_iff]
    constructor
    · push_cast
      unfold _half_second DAY_S
      norm_num
      linarith
    · push_cast
      unfold _half_second DAY_S
      norm_num
      linarith
  have hm2 : ⌊(((2451179.5 + (31 + q)/86400 + _half_second
      - leapTable98.2.getD 3 0 / DAY_S + 1/2 - 1 * ((2451179 : ℤ) : ℚ)) * 24
      - 1 * ((23 : ℤ) : ℚ)) * 3600) / 60⌋ = 59 := by
    rw [show leapTable98.2.getD 3 0 = 32 from rfl, Int.floor_eq_iff]
    constructor
    · push_cast
      unfold _half_second DAY_S
      rw [le_div_iff₀ (by norm_num : (0:ℚ) < 60)]
      norm_num
      linarith
    · push_cast
      unfold _half_second DAY_S
      rw [div_lt_iff₀ (by norm_num : (0:ℚ) < 60)]
      norm_num
      linarith
  have hres := JulianDate_utc_compute leapTable98 _half_second
    (2451179.5 + (31 + q)/86400) 3 2451179 23 59 hi hw hh2 hm2
  unfold utc_iso0_fields
  rw [hres]
  rw [show calendar_dateZ 2451179 = (1998, 12, 31) from by decide]
  rw [show leapTable98.1.getD (3 - 1) XRat.negInf = .fin 2451179.5 from rfl,
    show leapTable98.2.getD 3 0 = 32 from rfl]
  have hlt : XRat.lt (.fin (2451179.5 + (31 + q)/86400 + _half_second - 32 / DAY_S))
      (.fin 2451179.5) = true := by
    simp only [XRat.lt, decide_eq_true_eq]
    unfold _half_second DAY_S
    norm_num
    linarith
  rw [hlt]
  simp only [if_true]
  have hs : pytrunc (((2451179.5 + (31 + q)/86400 + _half_second - 32 / DAY_S + 1/2
      - 1 * ((2451179 : ℤ) : ℚ)) * 24 - 1 * ((23 : ℤ) : ℚ)) * 3600 - 60 * ((59 : ℤ) : ℚ)
      + 1) = 60 := by
    rw [pytrunc_of_nonneg]
    · rw [Int.floor_eq_iff]
      constructor
      · push_cast
        unfold _half_second DAY_S
        norm_num
        linarith
      · push_cast
        unfold _half_second DAY_S
        norm_num
        linarith
    · push_cast
      unfold _half_second DAY_S
      norm_num
      linarith
  rw [hs]

theorem C5_witness :
    utc_iso0_fields leapTable98 (2451179.5 + (31 + 0)/86400) = (1998, 12, 31, 23, 59, 60) :=
  C5_leap_display 0 (by norm_num) (by norm_num)

set_option maxHeartbeats 1000000 in
theorem C5_counterexample :
    (2451179.5 + 31/86400 ≤ (2451179.5 + (31 + 3/4)/86400 : ℚ))
    ∧ ((2451179.5 + (31 + 3/4)/86400 : ℚ) < 2451179.5 + 32/86400)
    ∧ utc_iso0_fields leapTable98 (2451179.5 + (31 + 3/4)/86400) = (1999, 1, 1, 0, 0, 0) := by
  refine ⟨by norm_num, by norm_num, ?_⟩
  have hi : searchsortedRight
      (List.zipWith XRat.addQ leapTable98.1 (leapTable98.2.map (fun o => o / DAY_S)))
      (.fin (2451179.5 + (31 + 3/4)/86400 + _half_second)) = 3 := by
    simp only [leapTable98, DAY_S, _half_second, List.map_cons, List.map_nil,
      List.zipWith_cons_cons, List.zipWith_nil_right, XRat.addQ, searchsortedRight,
      List.countP_cons, List.countP_nil, XRat.le, decide_eq_true_eq]
    norm_num
  have hw : ⌊(2451179.5 + (31 + 3/4)/86400 + _half_second
      - leapTable98.2.getD 3 0 / DAY_S + 1/2) / 1⌋ = 2451180 := by
    rw [show leapTable98.2.getD 3 0 = 32 from rfl]
    unfold _half_second DAY_S
    norm_num
  have hh2 : ⌊((2451179.5 + (31 + 3/4)/86400 + _half_second
      - leapTable98.2.getD 3 0 / DAY_S + 1/2 - 1 * ((2451180 : ℤ) : ℚ)) * 24) / 1⌋ = 0 := by
    rw [show leapTable98.2.getD 3 0 = 32 from rfl]
    unfold _half_second DAY_S
    norm_num
  have hm2 : ⌊(((2451179.5 + (31 + 3/4)/86400 + _half_second
      - leapTable98.2.getD 3 0 / DAY_S + 1/2 - 1 * ((2451180 : ℤ) : ℚ)) * 24
      - 1 * ((0 : ℤ) : ℚ)) * 3600) / 60⌋ = 0 := by
    rw [show leapTable98.2.getD 3 0 = 32 from rfl]
    unfold _half_second DAY_S
    norm_num
  have hres := JulianDate_utc_compute leapTable98 _half_second
    (2451179.5 + (31 + 3/4)/86400) 3 2451180 0 0 hi hw hh2 hm2
  unfold utc_iso0_fields
  rw [hres]
  rw [show calendar_dateZ 2451180 = (1999, 1, 1) from by decide]
  rw [show leapTable98.1.getD (3 - 1) XRat.negInf = .fin 2451179.5 from rfl,
    show leapTable98.2.getD 3 0 = 32 from rfl]
  have hlt : XRat.lt (.fin (2451179.5 + (31 + 3/4)/86400 + _half_second - 32 / DAY_S))
      (.fin 2451179.5) = false := by
    simp only [XRat.lt, decide_eq_false_iff_not]
    unfold _half_second DAY_S
    norm_num
  rw [hlt]
  simp only [Bool.false_eq_true, if_false]
  have hs : pytrunc (((2451179.5 + (31 + 3/4)/86400 + _half_second - 32 / DAY_S + 1/2
      - 1 * ((2451180 : ℤ) : ℚ)) * 24 - 1 * ((0 : ℤ) : ℚ)) * 3600 - 60 * ((0 : ℤ) : ℚ)
      + 0) = 0 := by
    rw [pytrunc_of_nonneg]
    · unfold _half_second DAY_S
      norm_num
    · unfold _half_second DAY_S
      norm_num
  rw [hs]

/-- C8 (amended): derived scales tai/tdb/ut1 and the formatting methods
preserve element count and order. -/
theorem C8_shape_preservation (xs : List ℚ) (dt : ℚ) (tbl : List XRat × List ℚ)
    (sine : ℚ → ℚ) (T0 : ℚ)
    (fmt : ℤ × ℤ × ℤ × ℤ × ℤ × ℤ × ℤ × ℤ × ℤ → String) :
    ∃ s, JulianDate_init_arr none (some xs) dt = .ok s
      ∧ s.tt = xs
      ∧ (jd_tai_arr s).length = xs.length
      ∧ (∀ i, (jd_tai_arr s).get? i = (xs.get? i).map (fun t => t - tt_minus_tai))
      ∧ (jd_tdb_arr sine T0 s).length = xs.length
      ∧ (∀ i, (jd_tdb_arr sine T0 s).get? i
          = (xs.get? i).map (fun t => t + tdb_minus_tt sine T0 t / DAY_S))
      ∧ (jd_ut1_arr s).length = xs.length
      ∧ (∀ i, (jd_ut1_arr s).get? i = (xs.get? i).map (fun t => t - dt / DAY_S))
      ∧ (utc_iso0_arr tbl s).length = xs.length
      ∧ (∀ i, (utc_iso0_arr tbl s).get? i
          = (xs.get? i).map (fun t => utc_iso0_fields tbl (t - tt_minus_tai)))
      ∧ (utc_strftime_arr fmt tbl s).length = xs.length
      ∧ (utc_datetime_arr tbl s).length = xs.length := by
  refine ⟨⟨none, xs, dt⟩, rfl, rfl, ?_, ?_, ?_, ?_, ?_, ?_, ?_, ?_, ?_, ?_⟩ <;>
    simp [jd_tai_arr, jd_tdb_arr, jd_ut1_arr, utc_iso0_arr, utc_strftime_arr,
      utc_datetime_arr, List.getElem?_map, Function.comp_def]

/-- C8 counterexample: on a two-element instance, reading the `utc`
attribute (the `__getattr__` branch that calls `cal_date`) raises TypeError
instead of producing a two-element result. -/
theorem C8_counterexample :
    ∃ s, JulianDate_init_arr none (some [0, 1]) 0 = .ok s
      ∧ (jd_tai_arr s).length = 2
      ∧ utc_getattr_arr leapTable98 (jd_tai_arr s)
          = .error "TypeError: only size-1 arrays can be converted to Python scalars" := by
  exact ⟨⟨none, [0, 1], 0⟩, rfl, rfl, rfl⟩
